import Mathlib

/-!
Shallow embedding of the credential/session lifecycle and quota-gated
admission subsystem of the image_to_text backend.

The document store is modelled as lists of documents (`DB`); Mongo's
`find_one` is `List.find?` (first match), `update_one` updates the first
matching document, `insert_one` appends, `count_documents` is the length
of a filter.  Time is `Int` seconds since the epoch; `datetime.utcnow()`
is passed in as an explicit `now` argument.  The JWT layer is modelled by
`BearerToken`: a token is either structurally/cryptographically invalid
(`malformed`) or a validly signed payload; `jwt.decode` verifies the
signature and the `exp` claim, raising the same `PyJWTError` family for
both failures, exactly as PyJWT does.  Random token values (`uuid4`) and
fresh document ids are passed in as explicit arguments, and the bcrypt
verifier is an explicit function argument.  Each service function returns
its result together with the post-state of the store; a raised
`HTTPException` is an `Except.error` result, and writes committed before
the raise stay committed, as in the Python code.
-/

namespace OcrBackend

/-- Seconds since the epoch (models `datetime`; `Int` so that window
subtraction `now - 24h` behaves like Python arithmetic). -/
abbrev Time := Int

/-- Models `fastapi.HTTPException`: status code plus detail message. -/
structure HTTPException where
  status_code : Nat
  detail : String
deriving Repr, DecidableEq

/-- A document of the `users` collection (registration shape in
`register_user`). -/
structure UserDoc where
  id : Nat
  username : String
  email : String
  hashed_password : String
  is_active : Bool
  is_premium : Bool
  is_admin : Bool
deriving Repr, DecidableEq

/-- A document of the `refresh_tokens` collection (shape inserted by
`create_refresh_token`). -/
structure RefreshTokenDoc where
  id : Nat
  token : String
  user_id : Nat
  expires_at : Time
  created_at : Time
  revoked : Bool
deriving Repr, DecidableEq

/-- A document of the `ocr_requests` collection (shape inserted by
`save_ocr_request`). -/
structure OcrRequestDoc where
  user_id : Nat
  language : String
  preprocess : Bool
  detail : Bool
  result_text : String
  created_at : Time
deriving Repr, DecidableEq

/-- The document store: the three collections the subsystem touches. -/
structure DB where
  users : List UserDoc
  refresh_tokens : List RefreshTokenDoc
  ocr_requests : List OcrRequestDoc
deriving Repr, DecidableEq

/-- Payload of a signed access token (`sub` and `exp` claims, as encoded
by `create_access_token`). -/
structure AccessPayload where
  sub : Option String
  exp : Time
deriving Repr, DecidableEq

/-- A bearer token as seen by `jwt.decode`: either the signature or
structure is invalid, or it is a validly signed payload. -/
inductive BearerToken where
  | malformed
  | signed (payload : AccessPayload)
deriving Repr, DecidableEq

/-- The `Token` response model (`app/models/token.py`). -/
structure Token where
  access_token : BearerToken
  refresh_token : String
  token_type : String
  expires_at : Time
deriving Repr, DecidableEq

/-! Configuration constants (`app/config.py`). -/

def ACCESS_TOKEN_EXPIRE_MINUTES : Nat := 30

def REFRESH_TOKEN_EXPIRE_DAYS : Nat := 7

def STANDARD_USER_DAILY_REQUEST_LIMIT : Nat := 10

def ALLOWED_IMAGE_FORMATS : List String := ["image/png", "image/jpeg", "image/jpg"]

/-! Exception values raised by the services. -/

def invalidRefreshExc : HTTPException :=
  ⟨401, "Недействительный или истекший refresh token"⟩

def inactiveUserExc : HTTPException :=
  ⟨401, "Пользователь не найден или неактивен"⟩

def loginFailedExc : HTTPException :=
  ⟨401, "Неверное имя пользователя или пароль"⟩

def credentialsExc : HTTPException :=
  ⟨401, "Неверные учетные данные"⟩

def disabledExc : HTTPException :=
  ⟨401, "Аккаунт отключен"⟩

def quotaExc : HTTPException :=
  ⟨429, "Превышен лимит запросов. Обновите аккаунт до Premium для снятия ограничений."⟩

def unsupportedFormatExc : HTTPException :=
  ⟨400, "Неподдерживаемый формат файла. Поддерживаемые форматы: " ++
    String.intercalate ", " ALLOWED_IMAGE_FORMATS⟩

/-- Mongo `update_one`: apply `f` to the first document satisfying `p`,
leave everything else unchanged. -/
def update_first {α : Type} (l : List α) (p : α → Bool) (f : α → α) : List α :=
  match l with
  | [] => []
  | x :: xs => if p x then f x :: xs else x :: update_first xs p f

/-- Filter used by `refresh_access_token`'s `find_one` on
`refresh_tokens`: token value matches, `revoked` is false, `expires_at`
strictly in the future. -/
def validRefreshFilter (refresh_token : String) (now : Time) (d : RefreshTokenDoc) : Bool :=
  d.token == refresh_token && d.revoked == false && decide (now < d.expires_at)

/-- Models `create_access_token` from `app/utils/security.py`: embeds the
subject and an absolute expiry `now + expires_delta` (seconds) and signs;
returns the signed token and the expiry. -/
def create_access_token (sub : String) (now : Time) (expires_delta : Option Int) :
    BearerToken × Time :=
  let expire := now + expires_delta.getD (ACCESS_TOKEN_EXPIRE_MINUTES * 60)
  (BearerToken.signed ⟨some sub, expire⟩, expire)

/-- Models `create_refresh_token`: insert a fresh credential row
(`revoked = false`, expiry `now + 7 days`) for `user_id`; the random
`uuid4` value and fresh document id are explicit arguments.  Returns
`(token value, expiry)` and the post-state. -/
def create_refresh_token (user_id : Nat) (token_value : String) (doc_id : Nat)
    (now : Time) (db : DB) : (String × Time) × DB :=
  let expires_at := now + REFRESH_TOKEN_EXPIRE_DAYS * 86400
  let doc : RefreshTokenDoc :=
    ⟨doc_id, token_value, user_id, expires_at, now, false⟩
  ((token_value, expires_at), { db with refresh_tokens := db.refresh_tokens ++ [doc] })

/-- Models `authenticate_user`: look the user up by username and check the
secret with the bcrypt verifier `verify` (plain, hashed); `none` models
the Python `False` for both an unknown user and a wrong password. -/
def authenticate_user (verify : String → String → Bool)
    (username password : String) (db : DB) : Option UserDoc :=
  match db.users.find? (fun u => u.username == username) with
  | none => none
  | some user => if verify password user.hashed_password then some user else none

/-- Models `login_user`: authenticate, then mint an access token and a
refresh credential.  On failure the single 401 login error is returned
and the store is untouched. -/
def login_user (verify : String → String → Bool) (username password : String)
    (now : Time) (new_token_value : String) (new_doc_id : Nat) (db : DB) :
    Except HTTPException Token × DB :=
  match authenticate_user verify username password db with
  | none => (.error loginFailedExc, db)
  | some user =>
    let (access_token, access_expires) :=
      create_access_token user.username now (some (ACCESS_TOKEN_EXPIRE_MINUTES * 60))
    let ((refresh_tok, _), db1) := create_refresh_token user.id new_token_value new_doc_id now db
    (.ok ⟨access_token, refresh_tok, "bearer", access_expires⟩, db1)

/-- Models `refresh_access_token`: one `find_one` with the combined
filter (token, not revoked, not expired); then the owning user must exist
and be active; then a new access token and refresh credential are minted
and the old credential is revoked by an `update_one` keyed on its `_id`
alone. -/
def refresh_access_token (refresh_token : String) (now : Time)
    (new_token_value : String) (new_doc_id : Nat) (db : DB) :
    Except HTTPException Token × DB :=
  match db.refresh_tokens.find? (validRefreshFilter refresh_token now) with
  | none => (.error invalidRefreshExc, db)
  | some token_doc =>
    match db.users.find? (fun u => u.id == token_doc.user_id) with
    | none => (.error inactiveUserExc, db)
    | some user =>
      if !user.is_active then (.error inactiveUserExc, db)
      else
        let (access_token, access_expires) :=
          create_access_token user.username now (some (ACCESS_TOKEN_EXPIRE_MINUTES * 60))
        let ((new_refresh, _), db1) := create_refresh_token user.id new_token_value new_doc_id now db
        let rt2 := update_first db1.refresh_tokens (fun d => d.id == token_doc.id)
          (fun d => { d with revoked := true })
        (.ok ⟨access_token, new_refresh, "bearer", access_expires⟩, { db1 with refresh_tokens := rt2 })

/-- Models `logout`: a single `update_one` with filter
`(token = refresh_token, revoked = false)` setting `revoked := true`;
always returns the same success message. -/
def logout (refresh_token : String) (db : DB) : String × DB :=
  let rt1 := update_first db.refresh_tokens
    (fun d => d.token == refresh_token && d.revoked == false)
    (fun d => { d with revoked := true })
  ("Успешный выход из системы", { db with refresh_tokens := rt1 })

/-- Models `jwt.decode(token, SECRET_KEY, algorithms=[ALGORITHM])`:
`none` stands for a raised `PyJWTError` — both a structural or
cryptographic failure and an expired `exp` claim raise a member of that
family (PyJWT's `ExpiredSignatureError` is a `PyJWTError`). -/
def jwt_decode (tok : BearerToken) (now : Time) : Option AccessPayload :=
  match tok with
  | .malformed => none
  | .signed payload => if payload.exp ≤ now then none else some payload

/-- Models `get_current_user`: decode and verify the bearer token,
resolve the subject to a user, reject inactive accounts. -/
def get_current_user (tok : BearerToken) (now : Time) (db : DB) :
    Except HTTPException UserDoc :=
  match jwt_decode tok now with
  | none => .error credentialsExc
  | some payload =>
    match payload.sub with
    | none => .error credentialsExc
    | some username =>
      match db.users.find? (fun u => u.username == username) with
      | none => .error credentialsExc
      | some user =>
        if !user.is_active then .error disabledExc
        else .ok user

/-- Filter counted by `check_user_request_limit`: usage records of the
account with `created_at` strictly greater than `now - 24h`. -/
def usageWindowFilter (user_id : Nat) (now : Time) (r : OcrRequestDoc) : Bool :=
  r.user_id == user_id && decide (now - 86400 < r.created_at)

/-- Models `check_user_request_limit`: premium accounts are never
checked; standard accounts are rejected with 429 when the count of usage
records in the trailing 24h window reaches the daily limit. -/
def check_user_request_limit (user_id : Nat) (is_premium : Bool) (now : Time)
    (db : DB) : Except HTTPException Unit :=
  if is_premium then .ok ()
  else
    let requests_count := (db.ocr_requests.filter (usageWindowFilter user_id now)).length
    if STANDARD_USER_DAILY_REQUEST_LIMIT ≤ requests_count then .error quotaExc
    else .ok ()

/-- Models `save_ocr_request`: append one usage record. -/
def save_ocr_request (user_id : Nat) (language : String)
    (preprocess detail_flag : Bool) (result_text : String) (now : Time) (db : DB) : DB :=
  { db with ocr_requests :=
      db.ocr_requests ++ [⟨user_id, language, preprocess, detail_flag, result_text, now⟩] }

/-- Models `extract_text`: quota check first, then the content-type
check, then the read/decode/recognise block (abstracted as the
`ocr_result` oracle: `Except.error e` models an exception raised inside
the `try`, surfaced as a 500), and only then the usage-record write. -/
def extract_text (ocr_result : Except String String) (content_type : String)
    (language : String) (preprocess detail_flag : Bool)
    (user_id : Nat) (is_premium : Bool) (now : Time) (db : DB) :
    Except HTTPException String × DB :=
  match check_user_request_limit user_id is_premium now db with
  | .error e => (.error e, db)
  | .ok _ =>
    if !(ALLOWED_IMAGE_FORMATS.contains content_type) then
      (.error unsupportedFormatExc, db)
    else
      match ocr_result with
      | .error e => (.error ⟨500, "Ошибка при обработке изображения: " ++ e⟩, db)
      | .ok full_text =>
        (.ok full_text, save_ocr_request user_id language preprocess detail_flag full_text now db)

/-!
Interleaving model of concurrent `refresh_access_token` calls.  Each
rotation attempt is decomposed into its store operations, each of which
the document store executes atomically in isolation: the `find_one` on
`refresh_tokens`, the `find_one` on `users`, the `insert_one` of the new
credential, and the `update_one` that sets `revoked`.  A schedule is a
list of thread choices; running a schedule interleaves the two threads'
store operations over the shared store.
-/

/-- Per-call inputs of one rotation attempt. -/
structure RotInput where
  refresh_token : String
  now : Time
  new_token_value : String
  new_doc_id : Nat
deriving Repr, DecidableEq

instance {ε α : Type} [DecidableEq ε] [DecidableEq α] : DecidableEq (Except ε α) := fun a b =>
  match a, b with
  | .error e1, .error e2 =>
    if h : e1 = e2 then isTrue (by rw [h])
    else isFalse (by intro c; injection c; exact h (by assumption))
  | .error _, .ok _ => isFalse (by intro c; exact Except.noConfusion c)
  | .ok _, .error _ => isFalse (by intro c; exact Except.noConfusion c)
  | .ok a1, .ok a2 =>
    if h : a1 = a2 then isTrue (by rw [h])
    else isFalse (by intro c; injection c; exact h (by assumption))

/-- Local state of one in-flight rotation attempt: program counter over
its store operations, values read so far, and the final result once the
attempt has returned. -/
structure RotThread where
  pc : Nat
  token_doc : Option RefreshTokenDoc
  user : Option UserDoc
  result : Option (Except HTTPException Token)
deriving Repr, DecidableEq

/-- A rotation attempt that has not started yet. -/
def rotStart : RotThread := ⟨0, none, none, none⟩

/-- One atomic store operation of `refresh_access_token`, exactly as the
code issues them: pc 0 is the validating `find_one`, pc 1 the user
lookup, pc 2 the `insert_one` of the new credential, pc 3 the
unconditional `update_one` by id that marks the old credential revoked
and returns the new pair. -/
def rotStep (inp : RotInput) (th : RotThread) (db : DB) : RotThread × DB :=
  match th.pc with
  | 0 =>
    match db.refresh_tokens.find? (validRefreshFilter inp.refresh_token inp.now) with
    | none => ({ th with pc := 4, result := some (.error invalidRefreshExc) }, db)
    | some doc => ({ th with pc := 1, token_doc := some doc }, db)
  | 1 =>
    match th.token_doc with
    | none => ({ th with pc := 4 }, db)
    | some doc =>
      match db.users.find? (fun u => u.id == doc.user_id) with
      | none => ({ th with pc := 4, result := some (.error inactiveUserExc) }, db)
      | some user =>
        if !user.is_active then
          ({ th with pc := 4, result := some (.error inactiveUserExc) }, db)
        else ({ th with pc := 2, user := some user }, db)
  | 2 =>
    match th.user with
    | none => ({ th with pc := 4 }, db)
    | some user =>
      ({ th with pc := 3 },
        (create_refresh_token user.id inp.new_token_value inp.new_doc_id inp.now db).2)
  | 3 =>
    match th.token_doc, th.user with
    | some doc, some user =>
      let (access_token, access_expires) :=
        create_access_token user.username inp.now (some (ACCESS_TOKEN_EXPIRE_MINUTES * 60))
      let rt := update_first db.refresh_tokens (fun d => d.id == doc.id)
        (fun d => { d with revoked := true })
      let th2 : RotThread :=
        ⟨4, th.token_doc, th.user,
          some (.ok ⟨access_token, inp.new_token_value, "bearer", access_expires⟩)⟩
      (th2, { db with refresh_tokens := rt })
    | _, _ => ({ th with pc := 4 }, db)
  | _ => (th, db)

/-- Run a schedule: `false` steps thread 0, `true` steps thread 1. -/
def rotRun (inp0 inp1 : RotInput) : List Bool → RotThread → RotThread → DB →
    RotThread × RotThread × DB
  | [], t0, t1, db => (t0, t1, db)
  | false :: rest, t0, t1, db =>
    let (t0', db') := rotStep inp0 t0 db
    rotRun inp0 inp1 rest t0' t1 db'
  | true :: rest, t0, t1, db =>
    let (t1', db') := rotStep inp1 t1 db
    rotRun inp0 inp1 rest t0 t1' db'

/-- The schedule that interleaves the two attempts operation by
operation: both `find_one`s run before either write. -/
def alternatingSchedule : List Bool :=
  [false, true, false, true, false, true, false, true]

/-- A post-state relates to a pre-state by `revocationOneWay` when every
pre-existing credential is, at its position, either unchanged or changed
only by setting its `revoked` flag to `true` (and the collection only
grows).  This implies that a `revoked = true` flag never reverts. -/
def revocationOneWay (pre post : List RefreshTokenDoc) : Prop :=
  pre.length ≤ post.length ∧
  ∀ i : Nat, (h1 : i < pre.length) → (h2 : i < post.length) →
    post.get ⟨i, h2⟩ = pre.get ⟨i, h1⟩ ∨
    post.get ⟨i, h2⟩ = { pre.get ⟨i, h1⟩ with revoked := true }

/-! Sample store contents used to instantiate the theorems. -/

/-- An active standard account. -/
def sampleUser : UserDoc := ⟨1, "bob", "bob@example.com", "hash1", true, false, false⟩

/-- A refresh credential of `sampleUser`, not revoked, expiring at 1000. -/
def sampleCred : RefreshTokenDoc := ⟨10, "tok", 1, 1000, 0, false⟩

/-- A store with one active user and one valid credential. -/
def sampleDB : DB := ⟨[sampleUser], [sampleCred], []⟩

/-- A store holding a valid credential whose owning account does not
exist. -/
def orphanCredDB : DB := ⟨[], [sampleCred], []⟩

/-- A usage record of account 1 inside the 24h window of `now = 1000`. -/
def sampleUsage (k : Nat) : OcrRequestDoc := ⟨1, "en", false, false, "r", 500 + k⟩

/-- A store where account 1 has exactly 10 usage records in the window. -/
def quotaFullDB : DB := ⟨[sampleUser], [], (List.range 10).map sampleUsage⟩

/-- The bcrypt verifier used in witnesses: the stored hash is the
password itself. -/
def sampleVerify : String → String → Bool := fun p h => p == h

/-- A store with a credential absent, one with it expired at `now = 100`,
and one with it already revoked (for the rejection cases of rotation). -/
def expiredCredDB : DB := ⟨[sampleUser], [⟨12, "tokE", 1, 50, 0, false⟩], []⟩

/-- A store whose only credential for `tokR` is already revoked. -/
def revokedCredDB : DB := ⟨[sampleUser], [⟨13, "tokR", 1, 1000, 0, true⟩], []⟩

/-! Helper lemmas about the store primitives. -/

theorem update_first_cons {α : Type} (x : α) (xs : List α) (p : α → Bool) (f : α → α) :
    update_first (x :: xs) p f = if p x then f x :: xs else x :: update_first xs p f := rfl

theorem update_first_length {α : Type} (l : List α) (p : α → Bool) (f : α → α) :
    (update_first l p f).length = l.length := by
  induction l with
  | nil => rfl
  | cons x xs ih =>
    simp only [update_first]
    by_cases hp : p x = true
    · simp [hp]
    · simp [hp, ih]

theorem update_first_get {α : Type} (l : List α) (p : α → Bool) (f : α → α)
    (i : Nat) (h1 : i < l.length) (h2 : i < (update_first l p f).length) :
    (update_first l p f).get ⟨i, h2⟩ = l.get ⟨i, h1⟩ ∨
    ((update_first l p f).get ⟨i, h2⟩ = f (l.get ⟨i, h1⟩) ∧ p (l.get ⟨i, h1⟩) = true) := by
  induction l generalizing i with
  | nil => simp at h1
  | cons x xs ih =>
    by_cases hp : p x = true
    · match i with
      | 0 => right; constructor <;> simp [update_first, hp]
      | i + 1 => left; simp [update_first, hp]
    · match i with
      | 0 => left; simp [update_first, hp]
      | i + 1 =>
        have h1' : i < xs.length := by simpa using h1
        have h2' : i < (update_first xs p f).length := by
          rw [update_first_length]; exact h1'
        have := ih i h1' h2'
        simpa [update_first, hp] using this

theorem update_first_nomatch {α : Type} (l : List α) (p : α → Bool) (f : α → α)
    (h : ∀ x ∈ l, p x = false) : update_first l p f = l := by
  induction l with
  | nil => rfl
  | cons x xs ih =>
    have hx : p x = false := h x (by simp)
    simp only [update_first, hx]
    simp [ih fun y hy => h y (by simp [hy])]

theorem mem_update_first_of_find? {α : Type} (l : List α) (p : α → Bool) (f : α → α)
    (x : α) (h : l.find? p = some x) : f x ∈ update_first l p f := by
  induction l with
  | nil => simp [List.find?] at h
  | cons y ys ih =>
    by_cases hp : p y = true
    · rw [List.find?_cons_of_pos _ hp] at h
      injection h with h
      subst h
      simp [update_first, hp]
    · rw [List.find?_cons_of_neg _ (by simpa using hp)] at h
      simp only [update_first, hp, if_false]
      exact List.mem_cons_of_mem _ (ih h)

theorem find?_append_left {α : Type} (l1 l2 : List α) (p : α → Bool) (x : α)
    (h : l1.find? p = some x) : (l1 ++ l2).find? p = some x := by
  induction l1 with
  | nil => simp [List.find?] at h
  | cons y ys ih =>
    by_cases hp : p y = true
    · rw [List.find?_cons_of_pos _ hp] at h
      simpa [List.find?_cons_of_pos _ hp] using h
    · rw [List.find?_cons_of_neg _ (by simpa using hp)] at h
      simpa [List.find?_cons_of_neg _ (by simpa using hp)] using ih h

theorem find?_id_of_pairwise (l : List RefreshTokenDoc)
    (hp : l.Pairwise (fun a b => a.id ≠ b.id)) (doc : RefreshTokenDoc) (hm : doc ∈ l) :
    l.find? (fun d => d.id == doc.id) = some doc := by
  induction l with
  | nil => simp at hm
  | cons x xs ih =>
    rcases List.mem_cons.mp hm with hx | hx
    · subst hx
      exact List.find?_cons_of_pos _ (by simp)
    · have hne : x.id ≠ doc.id := (List.pairwise_cons.mp hp).1 doc hx
      rw [List.find?_cons_of_neg _ (by simpa using hne)]
      exact ih (List.pairwise_cons.mp hp).2 hx

theorem revocationOneWay_refl (l : List RefreshTokenDoc) : revocationOneWay l l :=
  ⟨le_refl _, fun _ _ _ => Or.inl rfl⟩

theorem revocationOneWay_append (l new : List RefreshTokenDoc) :
    revocationOneWay l (l ++ new) := by
  refine ⟨by simp, fun i h1 h2 => Or.inl ?_⟩
  simp [List.get_eq_getElem, List.getElem_append_left h1]

theorem revocationOneWay_update_revoke (l : List RefreshTokenDoc)
    (p : RefreshTokenDoc → Bool) :
    revocationOneWay l (update_first l p (fun d => { d with revoked := true })) := by
  refine ⟨by rw [update_first_length], fun i h1 h2 => ?_⟩
  rcases update_first_get l p (fun d => { d with revoked := true }) i h1 h2 with h | ⟨h, _⟩
  · exact Or.inl h
  · exact Or.inr h

theorem revocationOneWay_trans {a b c : List RefreshTokenDoc}
    (hab : revocationOneWay a b) (hbc : revocationOneWay b c) : revocationOneWay a c := by
  obtain ⟨hl1, h1⟩ := hab
  obtain ⟨hl2, h2⟩ := hbc
  refine ⟨le_trans hl1 hl2, fun i ha hc => ?_⟩
  have hb : i < b.length := lt_of_lt_of_le ha hl1
  rcases h1 i ha hb with e1 | e1 <;> rcases h2 i hb hc with e2 | e2
  · exact Or.inl (e2.trans e1)
  · refine Or.inr ?_; rw [e2, e1]
  · exact Or.inr (e2.trans e1)
  · refine Or.inr ?_; rw [e2, e1]

/-! Claim theorems. -/

/-- C4: `check_user_request_limit` always admits a premium account, and
for a standard account it rejects with `QuotaExceeded` if and only if the
number of usage records of the account with timestamp strictly greater
than `now - 24h` is at least the daily limit, which is 10 — so with 9
records in the window the 10th operation is admitted and with 10 records
the 11th is rejected. -/
theorem c4_quota_admission (user_id : Nat) (now : Time) (db : DB) :
    STANDARD_USER_DAILY_REQUEST_LIMIT = 10 ∧
    check_user_request_limit user_id true now db = .ok () ∧
    (check_user_request_limit user_id false now db = .error quotaExc ↔
      10 ≤ (db.ocr_requests.filter (usageWindowFilter user_id now)).length) ∧
    (check_user_request_limit user_id false now db = .ok () ↔
      (db.ocr_requests.filter (usageWindowFilter user_id now)).length < 10) := by
  refine ⟨rfl, rfl, ?_, ?_⟩ <;>
  · unfold check_user_request_limit STANDARD_USER_DAILY_REQUEST_LIMIT
    split <;> simp_all

/-- C5: whenever a protected extraction request is rejected with
`QuotaExceeded`, no usage record is written — the usage log (indeed the
whole store) after the rejected request equals the one before it. -/
theorem c5_quota_reject_writes_nothing (ocr_result : Except String String)
    (content_type language : String) (preprocess detail_flag : Bool)
    (user_id : Nat) (is_premium : Bool) (now : Time) (db : DB)
    (h : (extract_text ocr_result content_type language preprocess detail_flag
      user_id is_premium now db).1 = .error quotaExc) :
    (extract_text ocr_result content_type language preprocess detail_flag
      user_id is_premium now db).2.ocr_requests = db.ocr_requests ∧
    (extract_text ocr_result content_type language preprocess detail_flag
      user_id is_premium now db).2 = db := by
  rcases hq : check_user_request_limit user_id is_premium now db with e | u
  · constructor <;> simp [extract_text, hq]
  · by_cases hc : content_type ∈ ALLOWED_IMAGE_FORMATS
    · rcases ho : ocr_result with e | full_text
      · simp [extract_text, hq, hc, ho, quotaExc] at h
      · simp [extract_text, hq, hc, ho, quotaExc] at h
    · simp [extract_text, hq, hc, quotaExc, unsupportedFormatExc] at h

/-- C5 witness: with 10 usage records already in the window, a standard
account's extraction request is rejected and the store is untouched. -/
theorem c5_witness :
    (extract_text (.ok "hello") "image/png" "en" false false 1 false 1000
      quotaFullDB).2.ocr_requests = quotaFullDB.ocr_requests ∧
    (extract_text (.ok "hello") "image/png" "en" false false 1 false 1000
      quotaFullDB).2 = quotaFullDB :=
  c5_quota_reject_writes_nothing (.ok "hello") "image/png" "en" false false 1 false 1000
    quotaFullDB (by decide)

/-- C9: a login attempt with an unknown handle and a login attempt with
an existing handle but a wrong secret produce the identical observable
failure — the same error value and the same (unchanged) store — leaking
no distinction between the two causes. -/
theorem c9_login_noninterference (verify : String → String → Bool)
    (now : Time) (ntv : String) (nid : Nat) (db : DB)
    (u1 p1 u2 p2 : String) (user2 : UserDoc)
    (h1 : db.users.find? (fun u => u.username == u1) = none)
    (h2 : db.users.find? (fun u => u.username == u2) = some user2)
    (h3 : verify p2 user2.hashed_password = false) :
    login_user verify u1 p1 now ntv nid db = (.error loginFailedExc, db) ∧
    login_user verify u2 p2 now ntv nid db = (.error loginFailedExc, db) := by
  constructor <;> simp [login_user, authenticate_user, h1, h2, h3]

/-- C9 witness: in `sampleDB`, logging in as the unknown "alice" and as
"bob" with a wrong secret yield the identical failure. -/
theorem c9_witness :
    login_user sampleVerify "alice" "x" 0 "nt" 99 sampleDB = (.error loginFailedExc, sampleDB) ∧
    login_user sampleVerify "bob" "wrong" 0 "nt" 99 sampleDB = (.error loginFailedExc, sampleDB) :=
  c9_login_noninterference sampleVerify 0 "nt" 99 sampleDB "alice" "x" "bob" "wrong"
    sampleUser (by decide) (by decide) (by decide)

/-- C10: rotation of a credential that is itself Valid is nevertheless
rejected when the owning account is missing or inactive, with the
user-not-found-or-inactive 401 error; the store is unchanged, so the
credential is not consumed — it stays present with `revoked = false`. -/
theorem c10_rotate_requires_live_account (t ntv : String) (now : Time) (nid : Nat)
    (db : DB) (doc : RefreshTokenDoc)
    (hfind : db.refresh_tokens.find? (validRefreshFilter t now) = some doc)
    (hbad : db.users.find? (fun u => u.id == doc.user_id) = none ∨
      ∃ user, db.users.find? (fun u => u.id == doc.user_id) = some user ∧
        user.is_active = false) :
    (refresh_access_token t now ntv nid db).1 = .error inactiveUserExc ∧
    (refresh_access_token t now ntv nid db).2 = db ∧
    doc.revoked = false ∧
    doc ∈ (refresh_access_token t now ntv nid db).2.refresh_tokens := by
  have hp := List.find?_some hfind
  have hmem := List.mem_of_find?_eq_some hfind
  have hrev : doc.revoked = false := by
    simp [validRefreshFilter] at hp
    exact hp.1.2
  have hres : refresh_access_token t now ntv nid db = (.error inactiveUserExc, db) := by
    rcases hbad with hnone | ⟨user, hu, hinact⟩
    · simp [refresh_access_token, hfind, hnone]
    · simp [refresh_access_token, hfind, hu, hinact]
  rw [hres]
  exact ⟨rfl, rfl, hrev, hmem⟩

/-- C10 witness: in `orphanCredDB` the credential "tok" is valid but its
owner does not exist; rotation is rejected and the credential survives
unrevoked. -/
theorem c10_witness :
    (refresh_access_token "tok" 100 "new" 21 orphanCredDB).1 = .error inactiveUserExc ∧
    (refresh_access_token "tok" 100 "new" 21 orphanCredDB).2 = orphanCredDB ∧
    sampleCred.revoked = false ∧
    sampleCred ∈ (refresh_access_token "tok" 100 "new" 21 orphanCredDB).2.refresh_tokens :=
  c10_rotate_requires_live_account "tok" "new" 100 21 orphanCredDB sampleCred
    (by decide) (Or.inl (by decide))

/-- C1 counterexample: in `orphanCredDB` the credential "tok" is in the
Valid state at `now = 100` (revoked flag false, expiry strictly in the
future), yet `rotate` does not succeed: it rejects with the
user-not-found-or-inactive error, because the owning account is absent. -/
theorem c1_counterexample :
    sampleCred ∈ orphanCredDB.refresh_tokens ∧
    sampleCred.revoked = false ∧
    (100 : Time) < sampleCred.expires_at ∧
    (refresh_access_token "tok" 100 "new" 21 orphanCredDB).1 = .error inactiveUserExc := by
  decide

/-- C1 (amended): for every stored refresh credential in the Valid state
whose owning account exists and is active, `rotate` succeeds: it returns
a brand-new access/refresh pair (the refresh value is the freshly
generated one, distinct from every stored token value), and the old
credential's revoked flag is true in the post-state. -/
theorem c1_rotate_valid_live_succeeds (t ntv : String) (now : Time) (nid : Nat)
    (db : DB) (doc : RefreshTokenDoc) (user : UserDoc)
    (hids : db.refresh_tokens.Pairwise (fun a b => a.id ≠ b.id))
    (hfresh : ∀ d ∈ db.refresh_tokens, d.token ≠ ntv)
    (hfind : db.refresh_tokens.find? (validRefreshFilter t now) = some doc)
    (huser : db.users.find? (fun u => u.id == doc.user_id) = some user)
    (hactive : user.is_active = true) :
    ∃ tok : Token,
      (refresh_access_token t now ntv nid db).1 = .ok tok ∧
      tok.refresh_token = ntv ∧
      tok.refresh_token ≠ doc.token ∧
      { doc with revoked := true } ∈ (refresh_access_token t now ntv nid db).2.refresh_tokens := by
  have hmem := List.mem_of_find?_eq_some hfind
  have hne : ntv ≠ doc.token := fun e => hfresh doc hmem e.symm
  have hfid : db.refresh_tokens.find? (fun d => d.id == doc.id) = some doc :=
    find?_id_of_pairwise db.refresh_tokens hids doc hmem
  have hfid2 : (db.refresh_tokens ++
      [(⟨nid, ntv, user.id, now + REFRESH_TOKEN_EXPIRE_DAYS * 86400, now, false⟩ : RefreshTokenDoc)]).find?
      (fun d => d.id == doc.id) = some doc :=
    find?_append_left _ _ _ _ hfid
  have hupd := mem_update_first_of_find? _ (fun d => d.id == doc.id)
    (fun d => { d with revoked := true }) doc hfid2
  use ⟨(create_access_token user.username now
      (some (ACCESS_TOKEN_EXPIRE_MINUTES * 60))).1, ntv, "bearer",
      (create_access_token user.username now (some (ACCESS_TOKEN_EXPIRE_MINUTES * 60))).2⟩
  refine ⟨?_, rfl, hne, ?_⟩
  · simp [refresh_access_token, hfind, huser, hactive, create_refresh_token]
  · simp only [refresh_access_token, hfind, huser, hactive, create_refresh_token]
    simpa using hupd

/-- C1 witness: in `sampleDB` the valid credential "tok" of the active
account rotates successfully and ends up revoked. -/
theorem c1_witness :
    ∃ tok : Token,
      (refresh_access_token "tok" 100 "new" 21 sampleDB).1 = .ok tok ∧
      tok.refresh_token = "new" ∧
      tok.refresh_token ≠ sampleCred.token ∧
      { sampleCred with revoked := true } ∈
        (refresh_access_token "tok" 100 "new" 21 sampleDB).2.refresh_tokens :=
  c1_rotate_valid_live_succeeds "tok" "new" 100 21 sampleDB sampleCred sampleUser
    (by simp [sampleDB]) (by decide) (by decide) (by decide) (by decide)

/-- C2 counterexample: the three rejection cases of `rotate` — token
absent from the store, token expired, token already revoked — do not
produce three distinct errors: the code raises one and the same 401
exception in all three cases, since a single combined `find_one` filter
cannot tell them apart. -/
theorem c2_counterexample :
    (refresh_access_token "tokA" 100 "n" 20 sampleDB).1 = .error invalidRefreshExc ∧
    (refresh_access_token "tokE" 100 "n" 20 expiredCredDB).1 = .error invalidRefreshExc ∧
    (refresh_access_token "tokR" 100 "n" 20 revokedCredDB).1 = .error invalidRefreshExc := by
  decide

/-- C2 (amended): `rotate` rejects whenever every stored credential with
the given token value is revoked or expired (in particular when no such
credential exists at all), but in all three cases with one and the same
401 error rather than three distinct ones; a revoked refresh token
therefore never again rotates successfully, even before its natural
expiry, and the rejected call leaves the store unchanged. -/
theorem c2_rotate_single_rejection_error (t ntv : String) (now : Time) (nid : Nat)
    (db : DB)
    (h : ∀ d ∈ db.refresh_tokens, d.token = t → d.revoked = true ∨ d.expires_at ≤ now) :
    (refresh_access_token t now ntv nid db).1 = .error invalidRefreshExc ∧
    (refresh_access_token t now ntv nid db).2 = db := by
  have hnone : db.refresh_tokens.find? (validRefreshFilter t now) = none := by
    rw [List.find?_eq_none]
    intro d hd hp
    simp only [validRefreshFilter, Bool.and_eq_true, beq_iff_eq, decide_eq_true_eq] at hp
    obtain ⟨⟨htok, hrev⟩, hlt⟩ := hp
    rcases h d hd htok with hr | he
    · rw [hr] at hrev
      exact Bool.noConfusion hrev
    · exact absurd hlt (not_lt.mpr he)
  constructor <;> simp [refresh_access_token, hnone]

/-- C2 witness: a revoked credential before its natural expiry is
rejected with the single 401 error and the store is unchanged. -/
theorem c2_witness :
    (refresh_access_token "tokR" 100 "n" 20 revokedCredDB).1 = .error invalidRefreshExc ∧
    (refresh_access_token "tokR" 100 "n" 20 revokedCredDB).2 = revokedCredDB :=
  c2_rotate_single_rejection_error "tokR" "n" 100 20 revokedCredDB (by decide)

/-- C6 counterexample: in `sampleDB` at `now = 100`, a structurally
invalid token and an expired but validly signed token of the existing
active account "bob" produce the identical 401 credentials error: the
code does not fail with a distinct expired error, because PyJWT's
`ExpiredSignatureError` is caught by the same `PyJWTError` handler as a
malformed token. -/
theorem c6_counterexample :
    get_current_user BearerToken.malformed 100 sampleDB = .error credentialsExc ∧
    get_current_user (BearerToken.signed ⟨some "bob", 50⟩) 100 sampleDB =
      .error credentialsExc := by
  decide

/-- C6 (amended): `authenticate` returns the resolved account exactly
when the token's signature verifies, its expiry is strictly in the
future, its subject is present and resolves to an existing account, and
that account's active flag is true.  All of malformed, expired,
missing-subject and unknown-subject tokens fail with one and the same
generic credentials error (no distinct malformed/expired/unknown
errors), and only the inactive-account case fails with a distinct
disabled error. -/
theorem c6_access_gate_characterisation (tok : BearerToken) (now : Time) (db : DB) :
    (tok = .malformed → get_current_user tok now db = .error credentialsExc) ∧
    (∀ p, tok = .signed p → p.exp ≤ now →
      get_current_user tok now db = .error credentialsExc) ∧
    (∀ p, tok = .signed p → now < p.exp → p.sub = none →
      get_current_user tok now db = .error credentialsExc) ∧
    (∀ p uname, tok = .signed p → now < p.exp → p.sub = some uname →
      db.users.find? (fun u => u.username == uname) = none →
      get_current_user tok now db = .error credentialsExc) ∧
    (∀ p uname user, tok = .signed p → now < p.exp → p.sub = some uname →
      db.users.find? (fun u => u.username == uname) = some user →
      user.is_active = false →
      get_current_user tok now db = .error disabledExc) ∧
    (∀ p uname user, tok = .signed p → now < p.exp → p.sub = some uname →
      db.users.find? (fun u => u.username == uname) = some user →
      user.is_active = true →
      get_current_user tok now db = .ok user) := by
  refine ⟨?_, ?_, ?_, ?_, ?_, ?_⟩
  · intro h
    subst h
    simp [get_current_user, jwt_decode]
  · intro p h hexp
    subst h
    simp [get_current_user, jwt_decode, hexp]
  · intro p h hlt hsub
    subst h
    simp [get_current_user, jwt_decode, not_le.mpr hlt, hsub]
  · intro p uname h hlt hsub hfind
    subst h
    simp [get_current_user, jwt_decode, not_le.mpr hlt, hsub, hfind]
  · intro p uname user h hlt hsub hfind hact
    subst h
    simp [get_current_user, jwt_decode, not_le.mpr hlt, hsub, hfind, hact]
  · intro p uname user h hlt hsub hfind hact
    subst h
    simp [get_current_user, jwt_decode, not_le.mpr hlt, hsub, hfind, hact]

/-- C6 witness: a validly signed, unexpired token for the active account
"bob" authenticates to that account. -/
theorem c6_witness :
    get_current_user (BearerToken.signed ⟨some "bob", 500⟩) 100 sampleDB = .ok sampleUser :=
  (c6_access_gate_characterisation (BearerToken.signed ⟨some "bob", 500⟩) 100
      sampleDB).2.2.2.2.2 ⟨some "bob", 500⟩ "bob" sampleUser rfl (by decide) rfl
    (by decide) rfl

/-- Helper for C7: a second `logout` with the same token finds nothing
left to revoke, provided the store holds at most one credential with
that token value. -/
theorem logout_update_idem (l : List RefreshTokenDoc) (t : String)
    (huniq : l.countP (fun d => d.token == t) ≤ 1) :
    update_first (update_first l (fun d => d.token == t && d.revoked == false)
        (fun d => { d with revoked := true }))
      (fun d => d.token == t && d.revoked == false)
      (fun d => { d with revoked := true }) =
    update_first l (fun d => d.token == t && d.revoked == false)
      (fun d => { d with revoked := true }) := by
  induction l with
  | nil => rfl
  | cons x xs ih =>
    by_cases hp : (x.token == t && x.revoked == false) = true
    · have htok : (x.token == t) = true := (Bool.and_eq_true _ _ |>.mp hp).1
      have hzero : xs.countP (fun d => d.token == t) = 0 := by
        rw [List.countP_cons] at huniq
        simp only [htok, if_true] at huniq
        omega
      have hnomatch : ∀ d ∈ xs, (d.token == t && d.revoked == false) = false := by
        intro d hd
        have hne := List.countP_eq_zero.mp hzero d hd
        simp only [Bool.and_eq_false_iff]
        left
        simpa using hne
      rw [update_first_cons, if_pos hp, update_first_cons, if_neg (by simp),
        update_first_nomatch xs _ _ hnomatch]
    · have hcount : xs.countP (fun d => d.token == t) ≤ 1 := by
        rw [List.countP_cons] at huniq
        omega
      rw [update_first_cons, if_neg hp, update_first_cons, if_neg hp, ih hcount]

/-- C7: for every token string — present, absent, expired or already
revoked — `logout` returns the same success acknowledgment, changes
nothing but the revoked flag of the (unique) matching non-revoked
credential, and is idempotent: a second `logout` returns the identical
result and store. -/
theorem c7_logout_idempotent_revoke (t : String) (db : DB)
    (huniq : db.refresh_tokens.countP (fun d => d.token == t) ≤ 1) :
    (logout t db).1 = "Успешный выход из системы" ∧
    (logout t db).2.users = db.users ∧
    (logout t db).2.ocr_requests = db.ocr_requests ∧
    (logout t db).2.refresh_tokens.length = db.refresh_tokens.length ∧
    (∀ i : Nat, (h1 : i < db.refresh_tokens.length) →
      (h2 : i < (logout t db).2.refresh_tokens.length) →
      (logout t db).2.refresh_tokens.get ⟨i, h2⟩ = db.refresh_tokens.get ⟨i, h1⟩ ∨
      ((logout t db).2.refresh_tokens.get ⟨i, h2⟩ =
          { db.refresh_tokens.get ⟨i, h1⟩ with revoked := true } ∧
        (db.refresh_tokens.get ⟨i, h1⟩).token = t ∧
        (db.refresh_tokens.get ⟨i, h1⟩).revoked = false)) ∧
    logout t (logout t db).2 = logout t db := by
  refine ⟨rfl, rfl, rfl, update_first_length _ _ _, ?_, ?_⟩
  · intro i h1 h2
    rcases update_first_get db.refresh_tokens
        (fun d => d.token == t && d.revoked == false)
        (fun d => { d with revoked := true }) i h1 h2 with h | ⟨heq, hp⟩
    · exact Or.inl h
    · refine Or.inr ⟨heq, ?_, ?_⟩
      · exact by simpa using (Bool.and_eq_true _ _ |>.mp hp).1
      · exact by simpa using (Bool.and_eq_true _ _ |>.mp hp).2
  · have hidem := logout_update_idem db.refresh_tokens t huniq
    simp only [logout, hidem]

/-- C7 witness: logging out the valid credential "tok" in `sampleDB`
succeeds, revokes exactly that credential, and a second logout is a
no-op with the same acknowledgment. -/
theorem c7_witness :
    (logout "tok" sampleDB).1 = "Успешный выход из системы" ∧
    (logout "tok" sampleDB).2.users = sampleDB.users ∧
    (logout "tok" sampleDB).2.ocr_requests = sampleDB.ocr_requests ∧
    (logout "tok" sampleDB).2.refresh_tokens.length = sampleDB.refresh_tokens.length ∧
    (∀ i : Nat, (h1 : i < sampleDB.refresh_tokens.length) →
      (h2 : i < (logout "tok" sampleDB).2.refresh_tokens.length) →
      (logout "tok" sampleDB).2.refresh_tokens.get ⟨i, h2⟩ =
        sampleDB.refresh_tokens.get ⟨i, h1⟩ ∨
      ((logout "tok" sampleDB).2.refresh_tokens.get ⟨i, h2⟩ =
          { sampleDB.refresh_tokens.get ⟨i, h1⟩ with revoked := true } ∧
        (sampleDB.refresh_tokens.get ⟨i, h1⟩).token = "tok" ∧
        (sampleDB.refresh_tokens.get ⟨i, h1⟩).revoked = false)) ∧
    logout "tok" (logout "tok" sampleDB).2 = logout "tok" sampleDB :=
  c7_logout_idempotent_revoke "tok" sampleDB (by decide)

/-- C8: every operation of the subsystem — refresh-credential issuance,
login, rotation and logout — relates its pre- and post-state by
`revocationOneWay`: each pre-existing credential is either untouched or
has only its revoked flag set to true, so a revoked flag never reverts
from true to false. -/
theorem c8_revocation_one_way (verify : String → String → Bool)
    (username password t tv ntv : String) (uid nid : Nat) (now : Time) (db : DB) :
    revocationOneWay db.refresh_tokens
      (create_refresh_token uid tv nid now db).2.refresh_tokens ∧
    revocationOneWay db.refresh_tokens
      (login_user verify username password now ntv nid db).2.refresh_tokens ∧
    revocationOneWay db.refresh_tokens
      (refresh_access_token t now ntv nid db).2.refresh_tokens ∧
    revocationOneWay db.refresh_tokens (logout t db).2.refresh_tokens := by
  refine ⟨?_, ?_, ?_, ?_⟩
  · exact revocationOneWay_append _ _
  · rcases ha : authenticate_user verify username password db with _ | user
    · simp only [login_user, ha]
      exact revocationOneWay_refl _
    · simp only [login_user, ha, create_refresh_token]
      exact revocationOneWay_append _ _
  · rcases hf : db.refresh_tokens.find? (validRefreshFilter t now) with _ | doc
    · simp only [refresh_access_token, hf]
      exact revocationOneWay_refl _
    · rcases hu : db.users.find? (fun u => u.id == doc.user_id) with _ | user
      · simp only [refresh_access_token, hf, hu]
        exact revocationOneWay_refl _
      · rcases hact : user.is_active with _ | _
        · simp only [refresh_access_token, hf, hu, hact, Bool.not_false, if_true]
          exact revocationOneWay_refl _
        · simp only [refresh_access_token, hf, hu, hact, Bool.not_true, Bool.false_eq_true,
            if_false, create_refresh_token]
          exact revocationOneWay_trans (revocationOneWay_append _ _)
            (revocationOneWay_update_revoke _ _)
  · exact revocationOneWay_update_revoke _ _

/-- C3 counterexample: in `sampleDB` two concurrent rotation attempts on
the same token "tok", interleaved store operation by store operation
(both validating `find_one`s run before either write), BOTH return a new
access/refresh pair — the claimed exactly-one-wins outcome does not
hold, because the revoking `update_one` is keyed on `_id` alone and is
not conditioned on the not-yet-revoked predicate, and success is decided
by the earlier separate `find_one`. -/
theorem c3_counterexample :
    (rotRun ⟨"tok", 100, "n0", 21⟩ ⟨"tok", 100, "n1", 22⟩ alternatingSchedule
      rotStart rotStart sampleDB).1.result =
      some (.ok ⟨.signed ⟨some "bob", 1900⟩, "n0", "bearer", 1900⟩) ∧
    (rotRun ⟨"tok", 100, "n0", 21⟩ ⟨"tok", 100, "n1", 22⟩ alternatingSchedule
      rotStart rotStart sampleDB).2.1.result =
      some (.ok ⟨.signed ⟨some "bob", 1900⟩, "n1", "bearer", 1900⟩) := by
  decide

/-- C3 (amended): the revocation step of `rotate` is an `update_one`
keyed on the credential's id alone, not conditioned on the
not-yet-revoked predicate, and the success of a rotation attempt is
decided by the earlier, separate validating `find_one`; consequently two
concurrent rotation attempts on the same valid token, interleaved so
that both `find_one`s execute before either write, BOTH succeed with a
new pair — exactly-one-wins does not hold. -/
theorem c3_rotate_not_atomic (t nv0 nv1 : String) (now : Time) (id0 id1 : Nat)
    (db : DB) (doc : RefreshTokenDoc) (user : UserDoc)
    (hfind : db.refresh_tokens.find? (validRefreshFilter t now) = some doc)
    (huser : db.users.find? (fun u => u.id == doc.user_id) = some user)
    (hactive : user.is_active = true) :
    ∃ tok0 tok1 : Token,
      (rotRun ⟨t, now, nv0, id0⟩ ⟨t, now, nv1, id1⟩ alternatingSchedule
        rotStart rotStart db).1.result = some (.ok tok0) ∧
      (rotRun ⟨t, now, nv0, id0⟩ ⟨t, now, nv1, id1⟩ alternatingSchedule
        rotStart rotStart db).2.1.result = some (.ok tok1) := by
  simp only [alternatingSchedule, rotRun, rotStart, rotStep, hfind, huser, hactive,
    Bool.not_true, Bool.false_eq_true, if_false]
  exact ⟨_, _, rfl, rfl⟩

/-- C3 witness for the amended claim: the concrete interleaving in
`sampleDB` where both attempts succeed. -/
theorem c3_witness :
    ∃ tok0 tok1 : Token,
      (rotRun ⟨"tok", 100, "n0", 21⟩ ⟨"tok", 100, "n1", 22⟩ alternatingSchedule
        rotStart rotStart sampleDB).1.result = some (.ok tok0) ∧
      (rotRun ⟨"tok", 100, "n0", 21⟩ ⟨"tok", 100, "n1", 22⟩ alternatingSchedule
        rotStart rotStart sampleDB).2.1.result = some (.ok tok1) :=
  c3_rotate_not_atomic "tok" "n0" "n1" 100 21 22 sampleDB sampleCred sampleUser
    (by decide) (by decide) (by decide)

end OcrBackend
